import Mathlib

/-!
Shallow embedding of the fee-estimation model of `chak-gas-estimation-poc`
(`src/gas_model/predict_fees.py`, the 4-tier estimator, and
`src/gas_model/optimized_predict_fees.py`, the one-tier estimator).

Modelling conventions:
* Fee values are unsigned integers (`ℕ`), exactly as the parsed hex integers
  in the scripts.
* Python floats are modelled as exact rationals (`ℚ`); the float literals of
  the source (`1.125`, `1.2`, `1.15`, `0.95`, `1.25`, `0.45`, `0.80`, `0.3`,
  `0.8`, `0.9`, `0.5`, `1.5`, `2.0`) denote the corresponding rationals.
* `int(x)` on a nonnegative value is the floor, written `⌊x⌋₊`.
* A Python runtime failure (IndexError on a short reward tuple or an empty
  list, `statistics.StatisticsError` on an empty median, ZeroDivisionError on
  an empty `gasUsedRatio`) is modelled by `Option`: the pipeline returns
  `none` exactly where the script raises, and `some` of the computed record
  otherwise.
-/

namespace GasModel

/-- Raw `eth_feeHistory` result as both scripts consume it: the parsed
`baseFeePerGas` list (block count + 1 entries, last one is the next block's
base fee), the parsed `reward` list of per-block percentile tuples, and the
`gasUsedRatio` list of per-block utilization floats (modelled as `ℚ`). -/
structure FeeHistorySample where
  baseFeePerGas : List ℕ
  reward : List (List ℕ)
  gasUsedRatio : List ℚ

/-- Function `calculate_max_base_fee` of `predict_fees.py`:
`multiplier = math.pow(1.125, blocks_ahead); return int(current_base * multiplier)`.
With floats as exact rationals, `1.125 = 9/8`, so for `blocks_ahead = k ≥ 0`
the returned value is `⌊current_base * 9^k / 8^k⌋`, computed here by natural
division; `math.pow` also accepts a negative exponent, where
`1.125 ^ (-m) = 8^m / 9^m` (see `calculate_max_base_fee_eq_floor`). -/
def calculate_max_base_fee (current_base : ℕ) (blocks_ahead : ℤ) : ℕ :=
  if 0 ≤ blocks_ahead then
    current_base * 9 ^ blocks_ahead.toNat / 8 ^ blocks_ahead.toNat
  else
    current_base * 8 ^ (-blocks_ahead).toNat / 9 ^ (-blocks_ahead).toNat

/-- Python `statistics.median` on a list of unsigned integers, as used by both
scripts: sort the data; an odd-length list yields the middle element, an
even-length list yields the true mean of the two middle elements (a rational);
the empty list raises `StatisticsError`, modelled as `none`. -/
def median (data : List ℕ) : Option ℚ :=
  let s := data.mergeSort (fun a b => decide (a ≤ b))
  let n := data.length
  if n = 0 then none
  else if n % 2 = 1 then some ((s.getD (n / 2) 0 : ℕ) : ℚ)
  else some ((((s.getD (n / 2 - 1) 0 : ℕ) : ℚ) + ((s.getD (n / 2) 0 : ℕ) : ℚ)) / 2)

/-- Tier-ordering pass of `predict_fees.py` (lines 106-110), acting on the
four truncated medians; each comparison uses the already-updated lower tier:

    if median_tip_60 <= median_tip_30: median_tip_60 = int(median_tip_30 * 1.2) if median_tip_30 > 0 else 1000000000
    if median_tip_75 <= median_tip_60: median_tip_75 = int(median_tip_60 * 1.15)
    if median_tip_90 <= median_tip_75: median_tip_90 = int(median_tip_75 * 1.2) if median_tip_75 > 0 else 1500000000

`int(t * 1.2) = 6*t/5` and `int(t * 1.15) = 23*t/20` exactly (floats as
rationals, natural division). Returns the updated `(t60, t75, t90)`. -/
def enforce_min_improvement (t30 t60 t75 t90 : ℕ) : ℕ × ℕ × ℕ :=
  let t60 := if t60 ≤ t30 then (if 0 < t30 then t30 * 6 / 5 else 1000000000) else t60
  let t75 := if t75 ≤ t60 then t60 * 23 / 20 else t75
  let t90 := if t90 ≤ t75 then (if 0 < t75 then t75 * 6 / 5 else 1500000000) else t90
  (t60, t75, t90)

/-- `avg_congestion = sum(gas_used_ratios) / len(gas_used_ratios)`; an empty
list raises ZeroDivisionError, modelled as `none`. -/
def avg_ratio (ratios : List ℚ) : Option ℚ :=
  if ratios.length = 0 then none else some (ratios.sum / (ratios.length : ℚ))

/-- Congestion multiplier of `predict_fees.py` (lines 130-135): `0.95` below
`0.45` average utilization, `1.25` above `0.80`, otherwise `1.0`. -/
def congestion_multiplier (avg_congestion : ℚ) : ℚ :=
  if avg_congestion < 0.45 then 0.95
  else if avg_congestion > 0.80 then 1.25
  else 1

/-- Application of the congestion multiplier to one tip in `predict_fees.py`
(lines 138-141): `int(tip * congestion_multiplier)`. -/
def apply_congestion (avg_congestion : ℚ) (tip : ℕ) : ℕ :=
  ⌊(tip : ℚ) * congestion_multiplier avg_congestion⌋₊

/-- Output record of the 4-tier estimator: the four congestion-adjusted
priority fees and the four fee caps printed by `predict_fees.py`. -/
structure TierFees where
  saver_tip : ℕ
  standard_tip : ℕ
  recommended_tip : ℕ
  urgent_tip : ℕ
  max_fee_saver : ℕ
  max_fee_std : ℕ
  max_fee_rec : ℕ
  max_fee_urgent : ℕ

/-- The 4-tier estimation pipeline of `predict_fees.py` (steps 2-5), as a
function of the fetched sample: parse the next-block base fee
(`base_fees[-1]`), extract the four percentile columns (`r[0] .. r[3]`, an
IndexError on a short tuple gives `none`), truncate the four medians, run the
tier-ordering pass, apply the congestion multiplier to every tip, and emit
each tier's cap `calculate_max_base_fee(next, k) + tip` for `k = 2, 4, 6, 10`. -/
def predict_fees (d : FeeHistorySample) : Option TierFees := do
  let next_block_base_fee ← d.baseFeePerGas.getLast?
  let tips_30 ← d.reward.mapM (fun r => r[0]?)
  let tips_60 ← d.reward.mapM (fun r => r[1]?)
  let tips_75 ← d.reward.mapM (fun r => r[2]?)
  let tips_90 ← d.reward.mapM (fun r => r[3]?)
  let m30 ← median tips_30
  let m60 ← median tips_60
  let m75 ← median tips_75
  let m90 ← median tips_90
  let median_tip_30 := ⌊m30⌋₊
  let updated := enforce_min_improvement median_tip_30 ⌊m60⌋₊ ⌊m75⌋₊ ⌊m90⌋₊
  let median_tip_60 := updated.1
  let median_tip_75 := updated.2.1
  let median_tip_90 := updated.2.2
  let avg_congestion ← avg_ratio d.gasUsedRatio
  let t30 := apply_congestion avg_congestion median_tip_30
  let t60 := apply_congestion avg_congestion median_tip_60
  let t75 := apply_congestion avg_congestion median_tip_75
  let t90 := apply_congestion avg_congestion median_tip_90
  some
    { saver_tip := t30
      standard_tip := t60
      recommended_tip := t75
      urgent_tip := t90
      max_fee_saver := calculate_max_base_fee next_block_base_fee 2 + t30
      max_fee_std := calculate_max_base_fee next_block_base_fee 4 + t60
      max_fee_rec := calculate_max_base_fee next_block_base_fee 6 + t75
      max_fee_urgent := calculate_max_base_fee next_block_base_fee 10 + t90 }

/-- Congestion adjustment of the suggested tip in
`optimized_predict_fees.py` (lines 92-96): `int(tip * 1.2)` above `0.8`
average utilization, `int(tip * 0.9)` below `0.3`, otherwise unchanged
(`int(t*1.2) = 6*t/5` and `int(t*0.9) = 9*t/10` exactly). -/
def adjust_priority_fee (avg_congestion : ℚ) (tip : ℕ) : ℕ :=
  if avg_congestion > 0.8 then tip * 6 / 5
  else if avg_congestion < 0.3 then tip * 9 / 10
  else tip

/-- Output record of `calculate_fees` in `optimized_predict_fees.py`. -/
structure FeeEstimate where
  base_fee_next : ℕ
  priority_fee_suggested : ℕ
  max_fee_per_gas : ℕ
  congestion : ℚ

/-- Function `calculate_fees` of `optimized_predict_fees.py`: next-block base
fee `base_fees[-1]`; trend over the window `base_fees[-6:-1]` (Python slice:
drop all but the last six, then drop the last; `recent[-1]`/`recent[0]` raise
IndexError when the window is empty, i.e. when fewer than two base fees were
returned); smoothed 50th-percentile tip `int(median(r[1] per block))`;
congestion adjustment of the tip; base-fee multiplier `2.0`, lowered to `1.5`
when the trend is not increasing and average utilization is below `0.5`;
cap `int(next_block_base_fee * multiplier + tip)`. -/
def calculate_fees (history : FeeHistorySample) : Option FeeEstimate := do
  let base_fees := history.baseFeePerGas
  let next_block_base_fee ← base_fees.getLast?
  let recent_base_fees := (base_fees.drop (base_fees.length - 6)).dropLast
  let first ← recent_base_fees.head?
  let last ← recent_base_fees.getLast?
  let recent_priority_fees ← history.reward.mapM (fun r => r[1]?)
  let m ← median recent_priority_fees
  let avg_congestion ← avg_ratio history.gasUsedRatio
  let suggested_priority_fee := adjust_priority_fee avg_congestion ⌊m⌋₊
  let base_fee_multiplier : ℚ :=
    if ¬ first < last ∧ avg_congestion < 0.5 then 1.5 else 2.0
  let max_fee_per_gas :=
    ⌊(next_block_base_fee : ℚ) * base_fee_multiplier + (suggested_priority_fee : ℚ)⌋₊
  some
    { base_fee_next := next_block_base_fee
      priority_fee_suggested := suggested_priority_fee
      max_fee_per_gas := max_fee_per_gas
      congestion := avg_congestion }

/-- Happy-path sample: two base fees (next-block fee 200), one reward block
`[3, 4, 5, 6]`, average utilization `0.5` (between both thresholds). -/
def sampleA : FeeHistorySample :=
  { baseFeePerGas := [100, 200], reward := [[3, 4, 5, 6]], gasUsedRatio := [0.5] }

/-- Sample whose Standard median (101) is already strictly above the Saver
median (100) but by less than 20%, with neutral utilization. -/
def sampleGap : FeeHistorySample :=
  { baseFeePerGas := [1000], reward := [[100, 101, 300, 400]], gasUsedRatio := [0.5] }

/-- Sample with reward tuples of inconsistent lengths (4 and 5), every tuple
still long enough for the requested percentile indices. -/
def sampleRagged : FeeHistorySample :=
  { baseFeePerGas := [100, 200], reward := [[1, 2, 3, 4], [1, 2, 3, 4, 9]],
    gasUsedRatio := [0.5] }

/-- One-tier sample: flat base fees, one reward block with 50th-percentile
tip 7, average utilization exactly `0.5` (keeps the `2.0` multiplier). -/
def sampleB : FeeHistorySample :=
  { baseFeePerGas := [1000, 1000], reward := [[0, 7, 0]], gasUsedRatio := [0.5] }

/-- One-tier sample hitting the reduced `1.5` multiplier: a non-increasing
trend window and average utilization `0.4 < 0.5`. -/
def sampleC : FeeHistorySample :=
  { baseFeePerGas := [1000, 900], reward := [[0, 8, 0]], gasUsedRatio := [0.4] }

/-! ### Helper lemmas -/

theorem calculate_max_base_fee_coe (b k : ℕ) :
    calculate_max_base_fee b (k : ℤ) = b * 9 ^ k / 8 ^ k := by
  simp [calculate_max_base_fee]

theorem floor_nat_mul_div (t a b : ℕ) :
    ⌊(t : ℚ) * ((a : ℚ) / (b : ℚ))⌋₊ = t * a / b := by
  have h : (t : ℚ) * ((a : ℚ) / (b : ℚ)) = ((t * a : ℕ) : ℚ) / ((b : ℕ) : ℚ) := by
    push_cast
    ring
  rw [h, Nat.floor_div_nat, Nat.floor_natCast]

theorem calculate_max_base_fee_eq_floor (b : ℕ) (k : ℤ) :
    calculate_max_base_fee b k = ⌊(b : ℚ) * (9/8 : ℚ) ^ k⌋₊ := by
  rcases le_or_lt 0 k with h | h
  · lift k to ℕ using h
    rw [calculate_max_base_fee_coe, zpow_natCast]
    have h9 : ((9 : ℚ)/8) ^ k = ((9 ^ k : ℕ) : ℚ) / ((8 ^ k : ℕ) : ℚ) := by
      push_cast
      rw [div_pow]
    rw [h9, floor_nat_mul_div]
  · obtain ⟨m, hm⟩ : ∃ m : ℕ, k = -(m : ℤ) := ⟨(-k).toNat, by omega⟩
    subst hm
    rw [calculate_max_base_fee, if_neg (not_le.mpr h)]
    have h9 : ((9 : ℚ)/8) ^ (-(m : ℤ)) = ((8 ^ m : ℕ) : ℚ) / ((9 ^ m : ℕ) : ℚ) := by
      rw [zpow_neg, zpow_natCast, ← inv_pow, inv_div]
      push_cast
      rw [div_pow]
    rw [h9, floor_nat_mul_div]
    simp

theorem calculate_max_base_fee_mono (b : ℕ) : Monotone (fun k : ℕ => calculate_max_base_fee b k) := by
  apply monotone_nat_of_le_succ
  intro k
  simp only [calculate_max_base_fee_coe]
  have h1 : b * 9 ^ k / 8 ^ k = 8 * (b * 9 ^ k) / (8 * 8 ^ k) := by
    rw [Nat.mul_div_mul_left _ _ (by norm_num)]
  have h2 : b * 9 ^ (k + 1) = 9 * (b * 9 ^ k) := by ring
  have h3 : (8 : ℕ) ^ (k + 1) = 8 * 8 ^ k := by ring
  rw [h1, h2, h3]
  exact Nat.div_le_div_right (Nat.mul_le_mul_right _ (by norm_num))

theorem mergeSort_eq_of_sorted {l s : List ℕ} (hp : l.Perm s) (hs : s.Sorted (· ≤ ·)) :
    l.mergeSort (fun a b => decide (a ≤ b)) = s := by
  apply List.eq_of_perm_of_sorted ((List.mergeSort_perm l _).trans hp) ?_ hs
  have h := @List.sorted_mergeSort ℕ (fun a b => decide (a ≤ b))
      (fun a b c hab hbc => by
        simp only [decide_eq_true_eq] at *
        omega)
      (fun a b => by simp [Nat.le_total]) l
  exact List.Pairwise.imp (fun hab => of_decide_eq_true hab) h

theorem median_eq_sorted (data s : List ℕ) (hp : data.Perm s) (hs : s.Sorted (· ≤ ·))
    (hne : data ≠ []) :
    median data = some (if data.length % 2 = 1
      then ((s.getD (data.length / 2) 0 : ℕ) : ℚ)
      else (((s.getD (data.length / 2 - 1) 0 : ℕ) : ℚ) +
            ((s.getD (data.length / 2) 0 : ℕ) : ℚ)) / 2) := by
  have hlen : data.length ≠ 0 := by
    simpa [List.length_eq_zero] using hne
  simp only [median, mergeSort_eq_of_sorted hp hs, if_neg hlen]
  split_ifs <;> rfl

theorem median_singleton (x : ℕ) : median [x] = some (x : ℚ) := by
  rw [median_eq_sorted [x] [x] (List.Perm.refl _) (by simp) (by simp)]
  norm_num

theorem median_pair_same (x : ℕ) : median [x, x] = some (x : ℚ) := by
  rw [median_eq_sorted [x, x] [x, x] (List.Perm.refl _) (by simp) (by simp)]
  norm_num

theorem avg_ratio_singleton (r : ℚ) : avg_ratio [r] = some r := by
  simp [avg_ratio]

theorem apply_congestion_eq (avg : ℚ) (tip : ℕ) :
    apply_congestion avg tip =
      if avg < 0.45 then tip * 19 / 20
      else if avg > 0.80 then tip * 5 / 4
      else tip := by
  unfold apply_congestion congestion_multiplier
  split_ifs with h1 h2
  · rw [show (0.95 : ℚ) = ((19 : ℕ) : ℚ) / ((20 : ℕ) : ℚ) by norm_num]
    exact floor_nat_mul_div tip 19 20
  · rw [show (1.25 : ℚ) = ((5 : ℕ) : ℚ) / ((4 : ℕ) : ℚ) by norm_num]
    exact floor_nat_mul_div tip 5 4
  · simp

theorem enforce_min_improvement_mono (t30 t60 t75 t90 : ℕ) :
    t30 ≤ (enforce_min_improvement t30 t60 t75 t90).1 ∧
    (enforce_min_improvement t30 t60 t75 t90).1 ≤ (enforce_min_improvement t30 t60 t75 t90).2.1 ∧
    (enforce_min_improvement t30 t60 t75 t90).2.1 ≤ (enforce_min_improvement t30 t60 t75 t90).2.2 := by
  simp only [enforce_min_improvement]
  refine ⟨?_, ?_, ?_⟩ <;> split_ifs <;> omega

theorem mapM_getElem?_eq_none {l : List (List ℕ)} {i : ℕ}
    (h : ∃ r ∈ l, r.length ≤ i) : l.mapM (fun r => r[i]?) = none := by
  induction l with
  | nil => simp at h
  | cons a t ih =>
    rw [List.mapM_cons]
    rcases h with ⟨r, hr, hlen⟩
    rcases List.mem_cons.mp hr with rfl | hmem
    · rw [List.getElem?_eq_none hlen]
      rfl
    · cases ha : a[i]? with
      | none => rfl
      | some v =>
        rw [ih ⟨r, hmem, hlen⟩]
        rfl

theorem predict_fees_sampleA :
    predict_fees sampleA = some ⟨3, 4, 5, 6, 256, 324, 410, 655⟩ := by
  simp only [predict_fees, sampleA, Option.bind_eq_bind]
  rw [show (([100, 200] : List ℕ).getLast?) = some 200 from rfl, Option.some_bind]
  rw [show (([[3,4,5,6]] : List (List ℕ)).mapM (fun r => r[0]?)) = some [3] from rfl,
    Option.some_bind]
  rw [show (([[3,4,5,6]] : List (List ℕ)).mapM (fun r => r[1]?)) = some [4] from rfl,
    Option.some_bind]
  rw [show (([[3,4,5,6]] : List (List ℕ)).mapM (fun r => r[2]?)) = some [5] from rfl,
    Option.some_bind]
  rw [show (([[3,4,5,6]] : List (List ℕ)).mapM (fun r => r[3]?)) = some [6] from rfl,
    Option.some_bind]
  rw [median_singleton 3, Option.some_bind]
  rw [median_singleton 4, Option.some_bind]
  rw [median_singleton 5, Option.some_bind]
  rw [median_singleton 6, Option.some_bind]
  rw [avg_ratio_singleton, Option.some_bind]
  norm_num [enforce_min_improvement, apply_congestion_eq]
  decide

theorem predict_fees_sampleGap :
    predict_fees sampleGap = some ⟨100, 101, 300, 400, 1365, 1702, 2327, 3647⟩ := by
  simp only [predict_fees, sampleGap, Option.bind_eq_bind]
  rw [show (([1000] : List ℕ).getLast?) = some 1000 from rfl, Option.some_bind]
  rw [show (([[100,101,300,400]] : List (List ℕ)).mapM (fun r => r[0]?)) = some [100] from rfl,
    Option.some_bind]
  rw [show (([[100,101,300,400]] : List (List ℕ)).mapM (fun r => r[1]?)) = some [101] from rfl,
    Option.some_bind]
  rw [show (([[100,101,300,400]] : List (List ℕ)).mapM (fun r => r[2]?)) = some [300] from rfl,
    Option.some_bind]
  rw [show (([[100,101,300,400]] : List (List ℕ)).mapM (fun r => r[3]?)) = some [400] from rfl,
    Option.some_bind]
  rw [median_singleton 100, Option.some_bind]
  rw [median_singleton 101, Option.some_bind]
  rw [median_singleton 300, Option.some_bind]
  rw [median_singleton 400, Option.some_bind]
  rw [avg_ratio_singleton, Option.some_bind]
  norm_num [enforce_min_improvement, apply_congestion_eq]
  decide

theorem predict_fees_sampleRagged :
    predict_fees sampleRagged = some ⟨1, 2, 3, 4, 254, 322, 408, 653⟩ := by
  simp only [predict_fees, sampleRagged, Option.bind_eq_bind]
  rw [show (([100, 200] : List ℕ).getLast?) = some 200 from rfl, Option.some_bind]
  rw [show (([[1,2,3,4],[1,2,3,4,9]] : List (List ℕ)).mapM (fun r => r[0]?)) = some [1, 1]
    from rfl, Option.some_bind]
  rw [show (([[1,2,3,4],[1,2,3,4,9]] : List (List ℕ)).mapM (fun r => r[1]?)) = some [2, 2]
    from rfl, Option.some_bind]
  rw [show (([[1,2,3,4],[1,2,3,4,9]] : List (List ℕ)).mapM (fun r => r[2]?)) = some [3, 3]
    from rfl, Option.some_bind]
  rw [show (([[1,2,3,4],[1,2,3,4,9]] : List (List ℕ)).mapM (fun r => r[3]?)) = some [4, 4]
    from rfl, Option.some_bind]
  rw [median_pair_same 1, Option.some_bind]
  rw [median_pair_same 2, Option.some_bind]
  rw [median_pair_same 3, Option.some_bind]
  rw [median_pair_same 4, Option.some_bind]
  rw [avg_ratio_singleton, Option.some_bind]
  norm_num [enforce_min_improvement, apply_congestion_eq]
  decide

theorem calculate_fees_sampleRagged :
    calculate_fees sampleRagged = some ⟨200, 2, 402, 0.5⟩ := by
  simp only [calculate_fees, sampleRagged, Option.bind_eq_bind]
  rw [show (([100, 200] : List ℕ).getLast?) = some 200 from rfl, Option.some_bind]
  rw [show ((([100, 200] : List ℕ).drop (([100, 200] : List ℕ).length - 6)).dropLast).head?
      = some 100 from rfl, Option.some_bind]
  rw [show ((([100, 200] : List ℕ).drop (([100, 200] : List ℕ).length - 6)).dropLast).getLast?
      = some 100 from rfl, Option.some_bind]
  rw [show (([[1,2,3,4],[1,2,3,4,9]] : List (List ℕ)).mapM (fun r => r[1]?)) = some [2, 2]
    from rfl, Option.some_bind]
  rw [median_pair_same 2, Option.some_bind]
  rw [avg_ratio_singleton, Option.some_bind]
  norm_num [adjust_priority_fee]

theorem calculate_fees_sampleB :
    calculate_fees sampleB = some ⟨1000, 7, 2007, 0.5⟩ := by
  simp only [calculate_fees, sampleB, Option.bind_eq_bind]
  rw [show (([1000, 1000] : List ℕ).getLast?) = some 1000 from rfl, Option.some_bind]
  rw [show ((([1000, 1000] : List ℕ).drop (([1000, 1000] : List ℕ).length - 6)).dropLast).head?
      = some 1000 from rfl, Option.some_bind]
  rw [show ((([1000, 1000] : List ℕ).drop
      (([1000, 1000] : List ℕ).length - 6)).dropLast).getLast? = some 1000 from rfl,
    Option.some_bind]
  rw [show (([[0, 7, 0]] : List (List ℕ)).mapM (fun r => r[1]?)) = some [7] from rfl,
    Option.some_bind]
  rw [median_singleton 7, Option.some_bind]
  rw [avg_ratio_singleton, Option.some_bind]
  norm_num [adjust_priority_fee]

theorem calculate_fees_sampleC :
    calculate_fees sampleC = some ⟨900, 8, 1358, 0.4⟩ := by
  simp only [calculate_fees, sampleC, Option.bind_eq_bind]
  rw [show (([1000, 900] : List ℕ).getLast?) = some 900 from rfl, Option.some_bind]
  rw [show ((([1000, 900] : List ℕ).drop (([1000, 900] : List ℕ).length - 6)).dropLast).head?
      = some 1000 from rfl, Option.some_bind]
  rw [show ((([1000, 900] : List ℕ).drop
      (([1000, 900] : List ℕ).length - 6)).dropLast).getLast? = some 1000 from rfl,
    Option.some_bind]
  rw [show (([[0, 8, 0]] : List (List ℕ)).mapM (fun r => r[1]?)) = some [8] from rfl,
    Option.some_bind]
  rw [median_singleton 8, Option.some_bind]
  rw [avg_ratio_singleton, Option.some_bind]
  norm_num [adjust_priority_fee]

theorem bind_fun_none {α β : Type} (o : Option α) :
    (o.bind fun _ => (none : Option β)) = none := by
  cases o <;> rfl

theorem apply_congestion_mono (avg : ℚ) {t t' : ℕ} (h : t ≤ t') :
    apply_congestion avg t ≤ apply_congestion avg t' := by
  simp only [apply_congestion_eq]
  split_ifs <;> omega

theorem floor_mul_two_add (b t : ℕ) : ⌊(b : ℚ) * 2.0 + (t : ℚ)⌋₊ = 2 * b + t := by
  rw [show (b : ℚ) * 2.0 + (t : ℚ) = ((2 * b + t : ℕ) : ℚ) by push_cast; norm_num; ring]
  exact Nat.floor_natCast _

theorem floor_mul_one_half_add (b t : ℕ) :
    ⌊(b : ℚ) * 1.5 + (t : ℚ)⌋₊ = 3 * b / 2 + t := by
  rw [show (b : ℚ) * 1.5 + (t : ℚ) = ((3 * b + 2 * t : ℕ) : ℚ) / ((2 : ℕ) : ℚ) by
    push_cast; norm_num; ring]
  rw [Nat.floor_div_nat, Nat.floor_natCast]
  omega

/-! ### Claims -/

/-- Claim C2, in the exact-arithmetic model of the source expression
`int(current_base * math.pow(1.125, blocks_ahead))`: for every
unsigned-integer base and every `blocksAhead = k ≥ 0` the projector returns
exactly `⌊base * 1.125^k⌋` (`1.125 = 9/8` as an exact rational); in
particular it maps `base = 200, k = 4` to `320`. (Under IEEE-754 semantics
the Python expression converts the base to a double, lossy from `2^53 + 1`
on, and `math.pow(1.125, k)` stops being exact at `k = 17`, where `9^k`
exceeds 53 bits; within those bounds the double computation agrees
bit-exactly with this identity.) -/
theorem C2_drift_projector_floor :
    (∀ (base k : ℕ), calculate_max_base_fee base (k : ℤ) = ⌊(base : ℚ) * (9/8 : ℚ) ^ k⌋₊)
    ∧ calculate_max_base_fee 200 4 = 320 :=
  ⟨fun base k => by rw [calculate_max_base_fee_eq_floor, zpow_natCast], by decide⟩

/-- Claim C7, in the exact-arithmetic model of the source expression
`int(current_base * math.pow(1.125, 0))`: with `blocksAhead = 0` the
projector returns the base unchanged for every unsigned-integer base.
(Under IEEE-754 semantics the Python expression converts the base to a
double, which is lossy from `2^53 + 1` on.) -/
theorem C7_project_zero (base : ℕ) : calculate_max_base_fee base 0 = base := by
  simp [calculate_max_base_fee]

/-- Claim C8 counterexample: the projector does not reject a negative
`blocksAhead`; `math.pow(1.125, -1) = 8/9` is well defined and the function
returns the ordinary value `int(1600 * 8/9) = 1422` instead of raising an
input-validation error. -/
theorem C8_counterexample : calculate_max_base_fee 1600 (-1) = 1422 := by decide

/-- Claim C8 amended: the drift projector performs no input validation at
all: for a negative `blocksAhead` it still totally computes
`⌊base * (9/8)^blocksAhead⌋` (and it has no error condition for
`blocksAhead ≥ 0` either, per C2). -/
theorem C8_projector_total (base : ℕ) (k : ℤ) (_h : k < 0) :
    calculate_max_base_fee base k = ⌊(base : ℚ) * (9/8 : ℚ) ^ k⌋₊ :=
  calculate_max_base_fee_eq_floor base k

/-- Witness for C8: at `base = 1600`, `blocksAhead = -1 < 0` the projector
returns the ordinary value `⌊1600 * (9/8)⁻¹⌋ = 1422`. -/
theorem C8_projector_total_witness :
    (-1 : ℤ) < 0 ∧ calculate_max_base_fee 1600 (-1) = ⌊(1600 : ℚ) * (9/8 : ℚ) ^ (-1 : ℤ)⌋₊ :=
  ⟨by decide, C8_projector_total 1600 (-1) (by decide)⟩

/-- Claim C5: for every non-empty rewards column, `statistics.median` returns
the standard statistical median - the middle element of the sorted column for
an odd length, the mean of the two middle elements for an even length - and
the pipeline truncates it to an unsigned integer; in particular the column
`[1,...,10]` has median `11/2`, truncated to `5`. -/
theorem C5_median_standard (data s : List ℕ) (hp : data.Perm s)
    (hs : s.Sorted (· ≤ ·)) (hne : data ≠ []) :
    median data = some (if data.length % 2 = 1
      then ((s.getD (data.length / 2) 0 : ℕ) : ℚ)
      else (((s.getD (data.length / 2 - 1) 0 : ℕ) : ℚ) +
            ((s.getD (data.length / 2) 0 : ℕ) : ℚ)) / 2)
    ∧ (median [1, 2, 3, 4, 5, 6, 7, 8, 9, 10]).map (fun q => ⌊q⌋₊) = some 5 := by
  refine ⟨median_eq_sorted data s hp hs hne, ?_⟩
  rw [median_eq_sorted [1, 2, 3, 4, 5, 6, 7, 8, 9, 10] [1, 2, 3, 4, 5, 6, 7, 8, 9, 10]
      (List.Perm.refl _) (by decide) (by decide)]
  norm_num
  rw [show (11 : ℚ) / 2 = ((11 : ℕ) : ℚ) / ((2 : ℕ) : ℚ) by norm_num,
    Nat.floor_div_nat, Nat.floor_natCast]

/-- Witness for C5: the column `[3, 1]` with sorted permutation `[1, 3]` has
median `(1 + 3)/2 = 2`, and the ten-element column truncates to `5`. -/
theorem C5_median_standard_witness :
    median [3, 1] = some 2
    ∧ (median [1, 2, 3, 4, 5, 6, 7, 8, 9, 10]).map (fun q => ⌊q⌋₊) = some 5 := by
  have h := C5_median_standard [3, 1] [1, 3] (by decide) (by decide) (by decide)
  refine ⟨?_, h.2⟩
  rw [h.1]
  norm_num

/-- Claim C3 counterexample: on `sampleGap` the Saver and Standard medians
are 100 and 101 and the average utilization is 0.5 (multiplier 1.0, so the
emitted tips are exactly the post-pass tips); Standard is already strictly
above Saver, so the tier-ordering pass leaves it at 101, and the claimed
bound `100 * 1.2 ≤ 101` fails. -/
theorem C3_counterexample :
    (predict_fees sampleGap).map TierFees.saver_tip = some 100
    ∧ (predict_fees sampleGap).map TierFees.standard_tip = some 101
    ∧ ¬ ((100 : ℚ) * 1.2 ≤ 101) := by
  rw [predict_fees_sampleGap]
  norm_num

/-- Claim C3 amended: after the tier-ordering pass the tiers are only weakly
monotone - each tier's tip is at least the next-lower tier's tip; the
`(1 + minIncrementRatio)` margin is enforced only on a tier whose median was
not already strictly above the lower tier's tip. -/
theorem C3_tier_ordering_weak (t30 t60 t75 t90 : ℕ) :
    t30 ≤ (enforce_min_improvement t30 t60 t75 t90).1
    ∧ (enforce_min_improvement t30 t60 t75 t90).1 ≤ (enforce_min_improvement t30 t60 t75 t90).2.1
    ∧ (enforce_min_improvement t30 t60 t75 t90).2.1 ≤ (enforce_min_improvement t30 t60 t75 t90).2.2 :=
  enforce_min_improvement_mono t30 t60 t75 t90

/-- Claim C4 counterexample: average utilization `0.85` is above the high
threshold `0.80`, yet the tip `1` is not strictly increased:
`int(1 * 1.25) = 1`. -/
theorem C4_counterexample :
    apply_congestion 0.85 1 = 1 ∧ (0.85 : ℚ) > 0.80 := by
  rw [apply_congestion_eq]
  norm_num

/-- Claim C4 amended: with mean utilization between the thresholds the
adjuster multiplies by 1.0 and leaves every tip unchanged (hence
re-application is idempotent); below the low threshold every positive tip
strictly decreases (a zero tip stays zero); above the high threshold a tip
never decreases, and increases strictly exactly when it is at least 4
(`int(tip * 1.25) = tip + tip/4`). -/
theorem C4_congestion_adjuster (avg : ℚ) (tip : ℕ) :
    ((0.45 ≤ avg ∧ avg ≤ 0.80) → apply_congestion avg tip = tip
        ∧ apply_congestion avg (apply_congestion avg tip) = apply_congestion avg tip)
    ∧ (avg < 0.45 → apply_congestion avg tip ≤ tip)
    ∧ (avg < 0.45 → 0 < tip → apply_congestion avg tip < tip)
    ∧ (0.80 < avg → tip ≤ apply_congestion avg tip)
    ∧ (0.80 < avg → (tip < apply_congestion avg tip ↔ 4 ≤ tip)) := by
  have hmid : ∀ t : ℕ, 0.45 ≤ avg → avg ≤ 0.80 → apply_congestion avg t = t := by
    intro t h1 h2
    rw [apply_congestion_eq, if_neg (not_lt.mpr h1), if_neg (not_lt.mpr h2)]
  refine ⟨fun ⟨h1, h2⟩ => ⟨hmid tip h1 h2, by rw [hmid tip h1 h2, hmid tip h1 h2]⟩,
    ?_, ?_, ?_, ?_⟩
  · intro h
    rw [apply_congestion_eq, if_pos h]
    omega
  · intro h hp
    rw [apply_congestion_eq, if_pos h]
    omega
  · intro h
    have hno : ¬ avg < 0.45 := not_lt.mpr (le_of_lt (lt_trans (by norm_num) h))
    rw [apply_congestion_eq, if_neg hno, if_pos h]
    omega
  · intro h
    have hno : ¬ avg < 0.45 := not_lt.mpr (le_of_lt (lt_trans (by norm_num) h))
    rw [apply_congestion_eq, if_neg hno, if_pos h]
    omega

/-- Witness for C4: at utilization `0.5` the tip 7 is unchanged; at `0.2` it
strictly decreases; at `0.9` it does not decrease, and strictly increases
since `7 ≥ 4`. -/
theorem C4_congestion_adjuster_witness :
    apply_congestion 0.5 7 = 7 ∧ apply_congestion 0.2 7 < 7
    ∧ 7 ≤ apply_congestion 0.9 7 ∧ (7 < apply_congestion 0.9 7 ↔ 4 ≤ 7) :=
  ⟨((C4_congestion_adjuster 0.5 7).1 ⟨by norm_num, by norm_num⟩).1,
   (C4_congestion_adjuster 0.2 7).2.2.1 (by norm_num) (by norm_num),
   (C4_congestion_adjuster 0.9 7).2.2.2.1 (by norm_num),
   (C4_congestion_adjuster 0.9 7).2.2.2.2 (by norm_num)⟩

/-- Claim C6 counterexample: `sampleRagged` has reward tuples of inconsistent
lengths (4 and 5), violating the fixed-size invariant of the data model, yet
both estimators produce full numeric recommendations instead of raising an
input-validation error - the extra tuple entry is silently ignored. -/
theorem C6_counterexample :
    sampleRagged.reward.map List.length = [4, 5]
    ∧ predict_fees sampleRagged = some ⟨1, 2, 3, 4, 254, 322, 408, 653⟩
    ∧ calculate_fees sampleRagged = some ⟨200, 2, 402, 0.5⟩ :=
  ⟨by decide, predict_fees_sampleRagged, calculate_fees_sampleRagged⟩

/-- Claim C6 amended: the estimators do fail, emitting nothing, when the
base-fee sequence is empty or a reward tuple is too short for a requested
percentile index (shorter than 4 for the 4-tier estimator, shorter than 2 for
the one-tier estimator); but reward tuples of inconsistent lengths are not
rejected as long as each is long enough. -/
theorem C6_input_failures (d : FeeHistorySample) :
    (d.baseFeePerGas = [] → predict_fees d = none ∧ calculate_fees d = none)
    ∧ ((∃ r ∈ d.reward, r.length < 4) → predict_fees d = none)
    ∧ ((∃ r ∈ d.reward, r.length < 2) → calculate_fees d = none) := by
  refine ⟨fun h => ⟨?_, ?_⟩, ?_, ?_⟩
  · simp only [predict_fees, h, List.getLast?_nil, Option.bind_eq_bind, Option.none_bind]
  · simp only [calculate_fees, h, List.getLast?_nil, Option.bind_eq_bind, Option.none_bind]
  · rintro ⟨r, hr, hlen⟩
    have h3 : d.reward.mapM (fun x => x[3]?) = none :=
      mapM_getElem?_eq_none ⟨r, hr, by omega⟩
    simp only [predict_fees, Option.bind_eq_bind, h3, Option.none_bind, bind_fun_none]
  · rintro ⟨r, hr, hlen⟩
    have h1 : d.reward.mapM (fun x => x[1]?) = none :=
      mapM_getElem?_eq_none ⟨r, hr, by omega⟩
    simp only [calculate_fees, Option.bind_eq_bind, h1, Option.none_bind, bind_fun_none]

/-- Witness for C6: an empty base-fee sequence and a too-short reward tuple
each make the estimators compute nothing. -/
theorem C6_input_failures_witness :
    predict_fees ⟨[], [[1, 2, 3, 4]], [0.5]⟩ = none
    ∧ calculate_fees ⟨[], [[1, 2, 3, 4]], [0.5]⟩ = none
    ∧ predict_fees ⟨[100], [[1, 2]], [0.5]⟩ = none
    ∧ calculate_fees ⟨[100, 200], [[7]], [0.5]⟩ = none :=
  ⟨((C6_input_failures _).1 rfl).1, ((C6_input_failures _).1 rfl).2,
   (C6_input_failures _).2.1 ⟨[1, 2], by simp, by norm_num⟩,
   (C6_input_failures _).2.2 ⟨[7], by simp, by norm_num⟩⟩

/-- Claim C9: for every sample the 4-tier estimator accepts, the emitted
congestion-adjusted tips are non-decreasing across tiers in ascending-risk
order (Saver, Standard, Recommended, Urgent), and the four fee caps are
non-decreasing as well, the drift horizons 2, 4, 6, 10 being increasing. -/
theorem C9_tiers_monotone (d : FeeHistorySample) (out : TierFees)
    (h : predict_fees d = some out) :
    out.saver_tip ≤ out.standard_tip ∧ out.standard_tip ≤ out.recommended_tip
    ∧ out.recommended_tip ≤ out.urgent_tip
    ∧ out.max_fee_saver ≤ out.max_fee_std ∧ out.max_fee_std ≤ out.max_fee_rec
    ∧ out.max_fee_rec ≤ out.max_fee_urgent := by
  simp only [predict_fees, Option.bind_eq_bind, Option.bind_eq_some, Option.some.injEq] at h
  obtain ⟨next, hnext, l30, h30, l60, h60, l75, h75, l90, h90, m30, hm30, m60, hm60,
    m75, hm75, m90, hm90, avg, havg, hout⟩ := h
  subst hout
  have hup := enforce_min_improvement_mono ⌊m30⌋₊ ⌊m60⌋₊ ⌊m75⌋₊ ⌊m90⌋₊
  have h24 : calculate_max_base_fee next 2 ≤ calculate_max_base_fee next 4 := by
    simpa using calculate_max_base_fee_mono next (show (2 : ℕ) ≤ 4 by norm_num)
  have h46 : calculate_max_base_fee next 4 ≤ calculate_max_base_fee next 6 := by
    simpa using calculate_max_base_fee_mono next (show (4 : ℕ) ≤ 6 by norm_num)
  have h610 : calculate_max_base_fee next 6 ≤ calculate_max_base_fee next 10 := by
    simpa using calculate_max_base_fee_mono next (show (6 : ℕ) ≤ 10 by norm_num)
  have t1 := apply_congestion_mono avg hup.1
  have t2 := apply_congestion_mono avg hup.2.1
  have t3 := apply_congestion_mono avg hup.2.2
  exact ⟨t1, t2, t3, Nat.add_le_add h24 t1, Nat.add_le_add h46 t2, Nat.add_le_add h610 t3⟩

/-- Witness for C9: on `sampleA` the estimator emits tips 3 ≤ 4 ≤ 5 ≤ 6 and
caps 256 ≤ 324 ≤ 410 ≤ 655. -/
theorem C9_tiers_monotone_witness :
    predict_fees sampleA = some ⟨3, 4, 5, 6, 256, 324, 410, 655⟩
    ∧ ((3 : ℕ) ≤ 4 ∧ (4 : ℕ) ≤ 5 ∧ (5 : ℕ) ≤ 6
      ∧ (256 : ℕ) ≤ 324 ∧ (324 : ℕ) ≤ 410 ∧ (410 : ℕ) ≤ 655) :=
  ⟨predict_fees_sampleA,
   C9_tiers_monotone sampleA ⟨3, 4, 5, 6, 256, 324, 410, 655⟩ predict_fees_sampleA⟩

/-- Claim C1 counterexample: on `sampleB` the one-tier estimator emits the
cap 2007 with adjusted tip 7 and next-block base fee 1000, and no drift
horizon `k` satisfies `⌊1000 * 1.125^k⌋ + 7 = 2007`: the one-tier cap uses
the flat multiplier 2.0, which is not a power of 1.125. -/
theorem C1_counterexample :
    calculate_fees sampleB = some ⟨1000, 7, 2007, 0.5⟩
    ∧ ¬ ∃ k : ℕ, 2007 = calculate_max_base_fee 1000 (k : ℤ) + 7 := by
  refine ⟨calculate_fees_sampleB, ?_⟩
  rintro ⟨k, hk⟩
  rcases le_or_lt k 5 with h | h
  · have hle : calculate_max_base_fee 1000 (k : ℤ) ≤ calculate_max_base_fee 1000 ((5 : ℕ) : ℤ) :=
      calculate_max_base_fee_mono 1000 h
    have h5 : calculate_max_base_fee 1000 ((5 : ℕ) : ℤ) = 1802 := by decide
    omega
  · have hge : calculate_max_base_fee 1000 ((6 : ℕ) : ℤ) ≤ calculate_max_base_fee 1000 (k : ℤ) :=
      calculate_max_base_fee_mono 1000 h
    have h6 : calculate_max_base_fee 1000 ((6 : ℕ) : ℤ) = 2027 := by decide
    omega

/-- Claim C1 amended: in the 4-tier estimator every emitted cap is the
projected base fee for that tier's horizon `k ∈ {2, 4, 6, 10}` plus the
tier's congestion-adjusted tip; in the one-tier estimator the cap is
`int(next * m) + adjustedTip` for the flat multiplier `m ∈ {2.0, 1.5}`
(which is not of the form `1.125^k`, see the counterexample). -/
theorem C1_cap_composition :
    (∀ (d : FeeHistorySample) (out : TierFees) (next : ℕ),
      predict_fees d = some out → d.baseFeePerGas.getLast? = some next →
        out.max_fee_saver = calculate_max_base_fee next 2 + out.saver_tip
        ∧ out.max_fee_std = calculate_max_base_fee next 4 + out.standard_tip
        ∧ out.max_fee_rec = calculate_max_base_fee next 6 + out.recommended_tip
        ∧ out.max_fee_urgent = calculate_max_base_fee next 10 + out.urgent_tip)
    ∧ (∀ (d : FeeHistorySample) (out : FeeEstimate) (next : ℕ),
      calculate_fees d = some out → d.baseFeePerGas.getLast? = some next →
        out.max_fee_per_gas = 2 * next + out.priority_fee_suggested
        ∨ out.max_fee_per_gas = 3 * next / 2 + out.priority_fee_suggested) := by
  constructor
  · intro d out next h hn
    simp only [predict_fees, Option.bind_eq_bind, Option.bind_eq_some, Option.some.injEq] at h
    obtain ⟨next', hnext, l30, h30, l60, h60, l75, h75, l90, h90, m30, hm30, m60, hm60,
      m75, hm75, m90, hm90, avg, havg, hout⟩ := h
    have hnn : next' = next := by
      rw [hnext] at hn
      exact Option.some_injective _ hn
    subst hnn
    subst hout
    exact ⟨rfl, rfl, rfl, rfl⟩
  · intro d out next h hn
    simp only [calculate_fees, Option.bind_eq_bind, Option.bind_eq_some,
      Option.some.injEq] at h
    obtain ⟨next', hnext, first, hfirst, last, hlast, lp, hlp, m, hm, avg, havg, hout⟩ := h
    have hnn : next' = next := by
      rw [hnext] at hn
      exact Option.some_injective _ hn
    subst hnn
    subst hout
    by_cases hc : ¬ first < last ∧ avg < 0.5
    · right
      dsimp only
      rw [if_pos hc]
      exact floor_mul_one_half_add _ _
    · left
      dsimp only
      rw [if_neg hc]
      exact floor_mul_two_add _ _

/-- Witness for C1: the 4-tier caps of `sampleA` decompose as projected base
fee plus adjusted tip, and the one-tier cap of `sampleB` is `2 * 1000 + 7`. -/
theorem C1_cap_composition_witness :
    ((256 : ℕ) = calculate_max_base_fee 200 2 + 3
      ∧ (324 : ℕ) = calculate_max_base_fee 200 4 + 4
      ∧ (410 : ℕ) = calculate_max_base_fee 200 6 + 5
      ∧ (655 : ℕ) = calculate_max_base_fee 200 10 + 6)
    ∧ ((2007 : ℕ) = 2 * 1000 + 7 ∨ (2007 : ℕ) = 3 * 1000 / 2 + 7) :=
  ⟨C1_cap_composition.1 sampleA ⟨3, 4, 5, 6, 256, 324, 410, 655⟩ 200
      predict_fees_sampleA rfl,
   C1_cap_composition.2 sampleB ⟨1000, 7, 2007, 0.5⟩ 1000 calculate_fees_sampleB rfl⟩

/-- Claim C10: the one-tier cap equals `int(next * 2.0) + adjustedTip`,
except when the trend window `base_fees[-6:-1]` is non-increasing (its last
element at most its first) and the average utilization is below 0.5, in
which case the multiplier drops to 1.5 and the cap equals
`int(next * 1.5) + adjustedTip`. -/
theorem C10_one_tier_multiplier (d : FeeHistorySample) (out : FeeEstimate)
    (next first last : ℕ) (avg : ℚ)
    (h : calculate_fees d = some out)
    (hn : d.baseFeePerGas.getLast? = some next)
    (hf : ((d.baseFeePerGas.drop (d.baseFeePerGas.length - 6)).dropLast).head? = some first)
    (hl : ((d.baseFeePerGas.drop (d.baseFeePerGas.length - 6)).dropLast).getLast? = some last)
    (ha : avg_ratio d.gasUsedRatio = some avg) :
    out.max_fee_per_gas =
      if last ≤ first ∧ avg < 0.5
      then ⌊(next : ℚ) * 1.5⌋₊ + out.priority_fee_suggested
      else ⌊(next : ℚ) * 2.0⌋₊ + out.priority_fee_suggested := by
  simp only [calculate_fees, Option.bind_eq_bind, Option.bind_eq_some, Option.some.injEq] at h
  obtain ⟨next', hnext, first', hfirst, last', hlast, lp, hlp, m, hm, avg', havg, hout⟩ := h
  have e1 : next' = next := by rw [hnext] at hn; exact Option.some_injective _ hn
  have e2 : first' = first := by rw [hfirst] at hf; exact Option.some_injective _ hf
  have e3 : last' = last := by rw [hlast] at hl; exact Option.some_injective _ hl
  have e4 : avg' = avg := by rw [havg] at ha; exact Option.some_injective _ ha
  subst hout
  rw [e1, e2, e3, e4]
  by_cases hc : last ≤ first ∧ avg < 0.5
  · rw [if_pos ⟨not_lt.mpr hc.1, hc.2⟩, if_pos hc]
    exact Nat.floor_add_nat (by positivity) _
  · rw [if_neg (fun hcon => hc ⟨not_lt.mp hcon.1, hcon.2⟩), if_neg hc]
    exact Nat.floor_add_nat (by positivity) _

/-- Witness for C10: `sampleC` has a flat trend window (1000 ≤ 1000) and
average utilization 0.4 < 0.5, so its cap is `⌊900 * 1.5⌋ + 8 = 1358`. -/
theorem C10_one_tier_multiplier_witness :
    calculate_fees sampleC = some ⟨900, 8, 1358, 0.4⟩
    ∧ (FeeEstimate.mk 900 8 1358 0.4).max_fee_per_gas =
      (if (1000 : ℕ) ≤ 1000 ∧ (0.4 : ℚ) < 0.5
      then ⌊(900 : ℚ) * 1.5⌋₊ + (FeeEstimate.mk 900 8 1358 0.4).priority_fee_suggested
      else ⌊(900 : ℚ) * 2.0⌋₊ + (FeeEstimate.mk 900 8 1358 0.4).priority_fee_suggested) :=
  ⟨calculate_fees_sampleC,
   C10_one_tier_multiplier sampleC ⟨900, 8, 1358, 0.4⟩ 900 1000 1000 0.4
     calculate_fees_sampleC rfl rfl rfl (avg_ratio_singleton 0.4)⟩

end GasModel
